import Mathlib

/-!
Verification of the OpenSearch template reconfiguration script
(`src/main.py`).  The script fetches index templates over HTTP, filters
them against a fixed allow-list, rewrites their shard/replica settings,
and validates each change by creating a probe document in a derived test
index, reading back the index settings, and deleting the test index.

JSON bodies exchanged with the cluster are modelled by the inductive
`JVal`; Python dictionaries (which keep insertion order and have unique
keys) are modelled as association lists with first-match lookup (`dget`)
and in-place update / append-on-miss assignment (`dset`).  Python
exceptions are modelled with `Option`/`Except`: `none` (or
`Except.error`) marks a raised exception that propagates to the caller.
-/

/-- JSON values as decoded by `json.loads`.  Numbers are modelled as
integers: the script only ever reads and writes integral shard and
replica counts. -/
inductive JVal where
  | str : String → JVal
  | num : Int → JVal
  | bool : Bool → JVal
  | null : JVal
  | arr : List JVal → JVal
  | obj : List (String × JVal) → JVal

/-- A decoded JSON object: a Python dict, insertion ordered. -/
abbrev Jobj := List (String × JVal)

/-- Dictionary lookup `d[k]` / `k in d`: first matching key. -/
def dget (d : Jobj) (k : String) : Option JVal :=
  match d with
  | [] => none
  | (k2, v) :: rest => if k2 = k then some v else dget rest k

/-- Dictionary assignment `d[k] = v`: updates the existing entry in
place, or appends a fresh entry at the end (Python dict semantics). -/
def dset (d : Jobj) (k : String) (v : JVal) : Jobj :=
  match d with
  | [] => [(k, v)]
  | (k2, v2) :: rest => if k2 = k then (k2, v) :: rest else (k2, v2) :: dset rest k v

/-- `v` viewed as a dict; `none` when a dict method or indexing is
applied to a non-dict value, which raises in Python. -/
def asObj : JVal → Option Jobj
  | JVal.obj o => some o
  | _ => none

/-- `d.get(k, {})` followed by use of the result as a dict: the default
empty dict when the key is missing, the stored dict when it is one, and
an exception (`none`) when a non-dict value is stored under `k`. -/
def getObjField (o : Jobj) (k : String) : Option Jobj :=
  match dget o k with
  | none => some []
  | some v => asObj v

/-- `template_data.get('settings', {}).get('index', {})`
(src/main.py lines 50 and 136). -/
def settings_index_of (fields : Jobj) : Option Jobj :=
  (getObjField fields "settings").bind (fun s => getObjField s "index")

/-- Decimal digits of an integer literal, most significant first. -/
def parseDigitsAux : List Char → Nat → Option Nat
  | [], acc => some acc
  | c :: rest, acc =>
      if c.isDigit then parseDigitsAux rest (acc * 10 + (c.toNat - 48)) else none

/-- A nonempty all-digit character list as a natural number. -/
def parseNatDigits : List Char → Option Nat
  | [] => none
  | l => parseDigitsAux l 0

/-- Python `int(s)` on a string: an optional sign followed by decimal
digits (the form the API uses for shard and replica counts); anything
else raises ValueError (`none`). -/
def pyIntOfString (s : String) : Option Int :=
  match s.data with
  | '-' :: rest => (parseNatDigits rest).map (fun n => -(n : Int))
  | '+' :: rest => (parseNatDigits rest).map (fun n => (n : Int))
  | l => (parseNatDigits l).map (fun n => (n : Int))

/-- Python `int(v)` on a decoded JSON value: parses integer strings,
passes integers through, converts booleans, and raises (`none`) on
anything else. -/
def pyInt : JVal → Option Int
  | JVal.str s => pyIntOfString s
  | JVal.num n => some n
  | JVal.bool b => some (if b then 1 else 0)
  | _ => none

/-- `int(settings.get(k, '-1'))` (src/main.py lines 137 and 138): a
missing field parses as the sentinel `-1`. -/
def parsed_setting (idx : Jobj) (k : String) : Option Int :=
  pyInt ((dget idx k).getD (JVal.str "-1"))

/-! ## Template discovery and detail extraction (src/main.py 13-15, 44-69, 203-204) -/

/-- The hardcoded allow-list `template_to_change = [target_template]`
(src/main.py lines 14-15). -/
def template_to_change : List String := ["sharding_test_template"]

/-- `{k: v for k, v in templates.items() if k in template_to_change}`
(src/main.py line 204): exact name membership in the allow-list. -/
def filter_templates (templates : Jobj) : Jobj :=
  templates.filter (fun kv => template_to_change.contains kv.1)

/-- `pattern.replace('*', '_test')` (src/main.py line 56): Python
`str.replace` substitutes EVERY occurrence of the single-character
needle `'*'` by `'_test'`. -/
def replace_star (s : String) : String :=
  String.mk (s.data.foldr
    (fun c acc => if c = '*' then '_' :: 't' :: 'e' :: 's' :: 't' :: acc else c :: acc) [])

/-- Modelled from the spec: "Derives the test index name from the first
`index_patterns` entry by substituting the first wildcard with a literal
suffix" — replaces only the FIRST `'*'`, for comparison with the
source's `replace_star`. -/
def replace_first_star_chars : List Char → List Char
  | [] => []
  | c :: rest =>
      if c = '*' then '_' :: 't' :: 'e' :: 's' :: 't' :: rest
      else c :: replace_first_star_chars rest

/-- Modelled from the spec: substitute only the first wildcard of a
pattern by `"_test"`. -/
def spec_first_wildcard (s : String) : String :=
  String.mk (replace_first_star_chars s.data)

/-- `v[0]` on the decoded value stored under `index_patterns`: the first
element of a list, the first character of a nonempty string, and an
exception (`none`, IndexError/KeyError/TypeError) otherwise. -/
def first_elem : JVal → Option JVal
  | JVal.arr (p :: _) => some p
  | JVal.arr [] => none
  | JVal.str s =>
      match s.data with
      | [] => none
      | c :: _ => some (JVal.str (String.mk [c]))
  | _ => none

/-- src/main.py lines 54-58: the test index name is
`template_data['index_patterns'][0].replace('*', '_test')` when the
`index_patterns` field exists, else `template_name + "_test"`.
`none` marks a raised exception (no first entry, or `.replace` on a
non-string), caught by the loop at line 66. -/
def derive_test_index (name : String) (fields : Jobj) : Option String :=
  match dget fields "index_patterns" with
  | none => some (name ++ "_test")
  | some v =>
    match first_elem v with
    | some (JVal.str p) => some (replace_star p)
    | some _ => none
    | none => none

/-- One row of the per-template view built by `get_template_details`
(src/main.py lines 60-65). -/
structure TemplateDetail where
  name : String
  shards : JVal
  replicas : JVal
  test_index : String

/-- The loop body of `get_template_details` (src/main.py lines 48-67)
for one `(template_name, template_data)` entry; `none` marks a raised
exception, caught at line 66, which skips the template. -/
def get_template_detail (name : String) (data : JVal) : Option TemplateDetail :=
  match asObj data with
  | none => none
  | some fields =>
    match settings_index_of fields with
    | none => none
    | some sIdx =>
      match derive_test_index name fields with
      | none => none
      | some ti =>
        some
          { name := name
            shards := (dget sIdx "number_of_shards").getD (JVal.str "default")
            replicas := (dget sIdx "number_of_replicas").getD (JVal.str "default")
            test_index := ti }

/-- `get_template_details` (src/main.py lines 44-69): templates whose
extraction raises are logged and skipped, the rest are kept in order. -/
def get_template_details (templates : Jobj) : List TemplateDetail :=
  templates.filterMap (fun kv => get_template_detail kv.1 kv.2)

/-- The names the run acts upon: `main` (src/main.py lines 204-231)
displays exactly the rows of `get_template_details (filter_templates
templates)` and calls `update_template` on exactly those rows' names. -/
def acted_names (templates : Jobj) : List String :=
  (get_template_details (filter_templates templates)).map TemplateDetail.name

/-! ## Template mutation: `update_template` (src/main.py lines 71-101) -/

/-- `if k not in d: d[k] = {}` followed by use of `d[k]` as a dict
(src/main.py lines 84-87): yields the empty dict when the key was
missing, the stored dict when it is one, and an exception (`none`,
raised by the later indexing or assignment) when a non-dict value is
stored. -/
def ensure_obj : Option JVal → Option Jobj
  | none => some []
  | some (JVal.obj o) => some o
  | some _ => none

/-- src/main.py lines 83-90: patch the fetched template body in place —
ensure `settings` and `settings.index` exist, then overwrite
`number_of_shards` and `number_of_replicas` with string-encoded
integers.  `none` marks a raised exception (non-dict body, `settings`
or `settings.index`). -/
def modify_body (body : JVal) (shards replicas : Int) : Option JVal :=
  match asObj body with
  | none => none
  | some fields =>
    match ensure_obj (dget fields "settings") with
    | none => none
    | some s0 =>
      match ensure_obj (dget s0 "index") with
      | none => none
      | some i0 =>
        some (JVal.obj (dset fields "settings" (JVal.obj (dset s0 "index" (JVal.obj
          (dset (dset i0 "number_of_shards" (JVal.str (toString shards)))
            "number_of_replicas" (JVal.str (toString replicas))))))))

/-- Python truthiness of a decoded JSON value (`if response`,
`response and ...`). -/
def truthy : JVal → Bool
  | JVal.str s => !s.isEmpty
  | JVal.num n => n != 0
  | JVal.bool b => b
  | JVal.null => false
  | JVal.arr l => !l.isEmpty
  | JVal.obj o => !o.isEmpty

/-- `response and response.get('acknowledged', False)` (src/main.py
line 95, also lines 153 and 180): truthy only when the response dict is
itself truthy and holds a truthy `acknowledged` value. -/
def ack_success (resp : Jobj) : Bool :=
  if resp.isEmpty then false
  else truthy ((dget resp "acknowledged").getD (JVal.bool false))

/-- Outcome of one `opensearch_command` call (src/main.py lines 20-37):
`transport` — curl exited non-zero, so `subprocess.run(check=True)`
raised and the exception propagates; `badJson` — the body failed to
decode, `run_command` returns `None`; `ok body` — the decoded JSON
object. -/
inductive CallResult where
  | transport
  | badJson
  | ok (body : Jobj)

/-- What one call of `update_template` did: its return value and the
body it PUT back to the cluster (`none` when no PUT was issued). -/
structure UpdateOutcome where
  success : Bool
  putBody : Option JVal

/-- `update_template` (src/main.py lines 71-101) over the outcomes of
its two HTTP calls (the GET of the current template and the PUT of the
patched body).  `Except.error ()` marks an exception propagating out of
the function (transport failure, or a malformed body making the patch
raise); otherwise the result carries the returned truth value and the
body PUT, if any. -/
def update_template_run (name : String) (shards replicas : Int)
    (getRes putRes : CallResult) : Except Unit UpdateOutcome :=
  match getRes with
  | CallResult.transport => Except.error ()
  | CallResult.badJson => Except.ok ⟨false, none⟩
  | CallResult.ok body =>
    match dget body name with
    | none => Except.ok ⟨false, none⟩
    | some cfg =>
      match modify_body cfg shards replicas with
      | none => Except.error ()
      | some newCfg =>
        match putRes with
        | CallResult.transport => Except.error ()
        | CallResult.badJson => Except.ok ⟨false, some newCfg⟩
        | CallResult.ok resp => Except.ok ⟨ack_success resp, some newCfg⟩

/-- State-level view of `update_template` against a cluster that stores
every PUT body and acknowledges it: fetch the stored body under `name`,
patch it, store the patched body back.  Returns the new store and the
function's truth value; `none` marks a raised exception. -/
def update_template_store (store : Jobj) (name : String) (shards replicas : Int) :
    Option (Jobj × Bool) :=
  match dget store name with
  | none => some (store, false)
  | some body =>
    match modify_body body shards replicas with
    | none => none
    | some newBody => some (dset store name newBody, true)

/-! ## Settings verification: `verify_index_settings` (src/main.py lines 126-145) -/

/-- src/main.py lines 130-138: retrieve `<index>/_settings` and parse
the two counts.  Outer `none` — an exception was raised (non-dict
value, or `int()` on a non-numeric value); `some none` — the
failed-to-retrieve path of line 132 (no response, empty response, or
the index name missing); `some (some (a, b))` — the parsed shard and
replica counts, a missing field parsing as `-1`. -/
def lookup_actuals (name : String) (resp : Option Jobj) : Option (Option (Int × Int)) :=
  match resp with
  | none => some none
  | some r =>
    if r.isEmpty then some none
    else
      match dget r name with
      | none => some none
      | some v =>
        match asObj v with
        | none => none
        | some fields =>
          match settings_index_of fields with
          | none => none
          | some sIdx =>
            match parsed_setting sIdx "number_of_shards",
                  parsed_setting sIdx "number_of_replicas" with
            | some a, some b => some (some (a, b))
            | some _, none => none
            | none, _ => none

/-- `verify_index_settings` (src/main.py lines 126-145) over the
decoded settings response: `false` on the failed-to-retrieve path,
otherwise `true` exactly when both parsed counts equal the expected
ones (lines 140-145).  `none` marks a raised exception. -/
def verify_index_settings (name : String) (es er : Int) (resp : Option Jobj) :
    Option Bool :=
  match lookup_actuals name resp with
  | none => none
  | some none => some false
  | some (some (a, b)) => some (decide (a = es ∧ b = er))

/-! ## Probe creation, cleanup and the per-template test loop
(src/main.py lines 103-124, 147-160, 237-256) -/

/-- `response and 'result' in response and response['result'] in
['created', 'updated']` (src/main.py line 117). -/
def create_doc_success (resp : Option Jobj) : Bool :=
  match resp with
  | none => false
  | some r =>
    if r.isEmpty then false
    else
      match dget r "result" with
      | some (JVal.str s) => s == "created" || s == "updated"
      | some _ => false
      | none => false

/-- An observable cluster operation issued by the test loop of `main`
(src/main.py lines 237-256). -/
inductive TestOp where
  | createDoc (idx : String)
  | sleepSecs (n : Nat)
  | verifySettings (idx : String) (es er : Int)
  | deleteIndex (idx : String)
deriving DecidableEq

/-- Recognizes the settings-verification call in a trace. -/
def is_verify_op : TestOp → Bool
  | TestOp.verifySettings _ _ _ => true
  | _ => false

/-- The body of the test loop of `main` (src/main.py lines 241-256) for
one updated template.  `createResp` is the decoded response of the
probe-document POST (`none` when its body failed to decode, making
`create_test_document` return `None`); `verifyRes` is the outcome of
`verify_index_settings` at line 246 — `some b` when it returns `b`,
`none` when it raises (a transport failure of the settings GET via
`subprocess.run(check=True)` at line 22, or `int()` on a non-numeric
count).  `Except.ok` carries the operations issued and the line printed
for the template; `Except.error` carries the operations issued before
the exception escaped the loop body — the verification call was made
but `delete_index` at line 249 is never reached. -/
def test_template (t : TemplateDetail) (createResp : Option Jobj)
    (verifyRes : Option Bool) : Except (List TestOp) (List TestOp × String) :=
  if create_doc_success createResp then
    match verifyRes with
    | none =>
      Except.error [TestOp.createDoc t.test_index, TestOp.sleepSecs 2,
        TestOp.verifySettings t.test_index 1 1]
    | some verified =>
      Except.ok ([TestOp.createDoc t.test_index, TestOp.sleepSecs 2,
        TestOp.verifySettings t.test_index 1 1, TestOp.deleteIndex t.test_index],
       if verified then
         "Template " ++ t.name ++ " was successfully updated and verified"
       else
         "Template " ++ t.name ++ " was updated but verification failed")
  else
    Except.ok ([TestOp.createDoc t.test_index], "Failed to test template " ++ t.name)

/-- The whole test loop (src/main.py lines 237-256): templates are
processed in order until one raises.  The first component collects, in
order, the records of templates whose loop body completed; the second
is `some` of the aborting template and its partial trace when an
exception escaped the loop (propagating to the handler at line 268 and
skipping every remaining template), and `none` when the loop ran to
completion. -/
def run_tests (ts : List TemplateDetail) (createResp : TemplateDetail → Option Jobj)
    (verifyRes : TemplateDetail → Option Bool) :
    List (TemplateDetail × List TestOp × String) × Option (TemplateDetail × List TestOp) :=
  match ts with
  | [] => ([], none)
  | t :: rest =>
    match test_template t (createResp t) (verifyRes t) with
    | Except.error ops => ([], some (t, ops))
    | Except.ok res =>
      ((t, res.1, res.2) :: (run_tests rest createResp verifyRes).1,
       (run_tests rest createResp verifyRes).2)

/-! ## Cluster URL configuration (src/main.py lines 11-18 and 31-37) -/

/-- The hardcoded cluster URL (src/main.py line 12). -/
def elasticsearch_url : String :=
  "https://vpc-alero-qa-1-l32rqdjyd567ba76iimggxmmom.us-east-1.es.amazonaws.com"

/-- `os.environ.get('ELASTICSEARCH_URL', elasticsearch_url)`
(src/main.py lines 17-18), over an explicit environment. -/
def opensearch_url (env : List (String × String)) : String :=
  match env.lookup "ELASTICSEARCH_URL" with
  | some v => v
  | none => elasticsearch_url

set_option linter.unusedVariables false in
/-- The URL every request targets: `opensearch_command` (src/main.py
line 33) interpolates the module-level constant `elasticsearch_url`
directly — it never calls `opensearch_url()`, so the environment is
ignored. -/
def opensearch_command_url (env : List (String × String)) (endpoint : String) : String :=
  elasticsearch_url ++ "/" ++ endpoint

/-! ## Dictionary lemmas -/

theorem dget_dset_self (d : Jobj) (k : String) (v : JVal) :
    dget (dset d k v) k = some v := by
  induction d with
  | nil => simp [dget, dset]
  | cons hd t ih =>
    obtain ⟨ka, va⟩ := hd
    by_cases hk : ka = k
    · simp [dget, dset, hk]
    · simp [dget, dset, hk, ih]

theorem dget_dset_ne (d : Jobj) (k k2 : String) (v : JVal) (h : k2 ≠ k) :
    dget (dset d k v) k2 = dget d k2 := by
  induction d with
  | nil =>
    simp only [dset, dget]
    rw [if_neg (fun e => h e.symm)]
  | cons hd t ih =>
    obtain ⟨ka, va⟩ := hd
    by_cases hk : ka = k
    · subst hk
      have hne : ¬ (ka = k2) := fun e => h e.symm
      simp [dget, dset, hne]
    · by_cases hk2 : ka = k2
      · subst hk2
        simp [dget, dset, hk]
      · simp [dget, dset, hk, hk2, ih]

theorem dset_of_dget_eq (d : Jobj) (k : String) (v : JVal) (h : dget d k = some v) :
    dset d k v = d := by
  induction d with
  | nil => simp [dget] at h
  | cons hd t ih =>
    obtain ⟨ka, va⟩ := hd
    by_cases hk : ka = k
    · subst hk
      simp [dget] at h
      simp [dset, h]
    · simp [dget, hk] at h
      simp [dset, hk, ih h]

/-! ## Claim C5 -/

/-- Claim C5 (code bug): setting `ELASTICSEARCH_URL` does not redirect
requests.  `opensearch_url()` (src/main.py lines 17-18) resolves the
override, but `opensearch_command` (line 33) interpolates the hardcoded
module constant directly and never calls it, so every request still
targets the hardcoded URL. -/
theorem opensearch_requests_ignore_env_override :
    opensearch_url [("ELASTICSEARCH_URL", "http://localhost:9200")] = "http://localhost:9200" ∧
    opensearch_command_url [("ELASTICSEARCH_URL", "http://localhost:9200")] "_template" =
      elasticsearch_url ++ "/" ++ "_template" ∧
    opensearch_command_url [("ELASTICSEARCH_URL", "http://localhost:9200")] "_template" ≠
      "http://localhost:9200" ++ "/" ++ "_template" := by
  refine ⟨rfl, rfl, by decide⟩

/-! ## Claim C4 -/

/-- Claim C4 (counterexample): for `index_patterns = ["*a*"]` the code
derives `"_testa_test"` — `str.replace` substitutes EVERY `'*'` — while
substituting only the first wildcard (the claim's wording, modelled by
`spec_first_wildcard`) would give `"_testa*"`. -/
theorem derive_test_index_first_wildcard_cex :
    derive_test_index "t" [("index_patterns", JVal.arr [JVal.str "*a*"])] =
      some "_testa_test" ∧
    spec_first_wildcard "*a*" = "_testa*" ∧
    ("_testa_test" : String) ≠ "_testa*" := by
  refine ⟨by decide, by decide, by decide⟩

/-- Claim C4 (amended): the derived test index name equals the first
`index_patterns` entry with EVERY wildcard character substituted by the
literal `"_test"` (for a single-wildcard pattern such as `"audit-*"`
this coincides with substituting the first wildcard, giving
`"audit-_test"`); when the template has no `index_patterns` field the
name falls back to `"<template_name>_test"`. -/
theorem derive_test_index_amended (name : String) (fields : Jobj) :
    (∀ p rest, dget fields "index_patterns" = some (JVal.arr (JVal.str p :: rest)) →
      derive_test_index name fields = some (replace_star p)) ∧
    (dget fields "index_patterns" = none →
      derive_test_index name fields = some (name ++ "_test")) := by
  constructor
  · intro p rest hp
    simp [derive_test_index, hp, first_elem]
  · intro hp
    simp [derive_test_index, hp]

/-- Witness for C4: `index_patterns = ["audit-*"]` derives
`"audit-_test"`, and a template without `index_patterns` falls back to
`"<template_name>_test"`. -/
theorem derive_test_index_amended_witness :
    derive_test_index "audit-v1" [("index_patterns", JVal.arr [JVal.str "audit-*"])] =
      some "audit-_test" ∧
    derive_test_index "sharding_test_template" [] =
      some "sharding_test_template_test" := by
  constructor
  · have h := (derive_test_index_amended "audit-v1"
      [("index_patterns", JVal.arr [JVal.str "audit-*"])]).1 "audit-*" [] rfl
    rw [h]
    decide
  · exact (derive_test_index_amended "sharding_test_template" []).2 rfl

/-! ## Claim C10 -/

/-- Claim C10: when the initial GET of the template yields no usable
body (`None` after a decode failure) or a body without the template
name as a key, `update_template` returns `False` without issuing a PUT
(`putBody = none`), leaving the stored template state unchanged. -/
theorem update_template_get_failure_no_put (name : String) (shards replicas : Int)
    (putRes : CallResult) :
    (update_template_run name shards replicas CallResult.badJson putRes =
      Except.ok ⟨false, none⟩) ∧
    (∀ body, dget body name = none →
      update_template_run name shards replicas (CallResult.ok body) putRes =
        Except.ok ⟨false, none⟩) := by
  constructor
  · rfl
  · intro body hb
    simp [update_template_run, hb]

/-- Witness for C10: a GET body that does not contain the template name
makes `update_template` return `False` with no PUT issued. -/
theorem update_template_get_failure_no_put_witness :
    update_template_run "sharding_test_template" 1 1
      (CallResult.ok [("other_template", JVal.obj [])]) CallResult.transport =
      Except.ok ⟨false, none⟩ :=
  (update_template_get_failure_no_put "sharding_test_template" 1 1
    CallResult.transport).2 [("other_template", JVal.obj [])] rfl

/-! ## Claim C2 -/

/-- Claim C2: `verify_index_settings` returns `True` exactly when the
parsed `number_of_shards` and `number_of_replicas` both equal the
expected integers; a missing field parses as the sentinel `-1`
(src/main.py lines 137-138), which can never match a non-negative
expected count, so a missing field never produces a false match. -/
theorem verify_index_settings_iff (name : String) (es er : Int) (resp : Option Jobj) :
    (verify_index_settings name es er resp = some true ↔
      lookup_actuals name resp = some (some (es, er))) ∧
    (∀ sIdx k, dget sIdx k = none → parsed_setting sIdx k = some (-1)) ∧
    (0 ≤ es → ∀ b, lookup_actuals name resp = some (some (-1, b)) →
      verify_index_settings name es er resp ≠ some true) ∧
    (0 ≤ er → ∀ a, lookup_actuals name resp = some (some (a, -1)) →
      verify_index_settings name es er resp ≠ some true) := by
  have hiff : verify_index_settings name es er resp = some true ↔
      lookup_actuals name resp = some (some (es, er))
  · unfold verify_index_settings
    rcases h : lookup_actuals name resp with _ | (_ | ⟨a, b⟩)
    · simp
    · simp
    · simp [decide_eq_true_eq]
  refine ⟨hiff, ?_, ?_, ?_⟩
  · intro sIdx k hk
    simp only [parsed_setting, hk, Option.getD_none]
    decide
  · intro hes b hb hcontra
    rw [hiff, hb] at hcontra
    simp at hcontra
    omega
  · intro her a ha hcontra
    rw [hiff, ha] at hcontra
    simp at hcontra
    omega

/-- Witness for C2: a response whose parsed counts are `(1, 1)` makes
`verify_index_settings` with expected `(1, 1)` return `True`. -/
theorem verify_index_settings_iff_witness :
    verify_index_settings "audit-_test" 1 1 (some [("audit-_test", JVal.obj
      [("settings", JVal.obj [("index", JVal.obj
        [("number_of_shards", JVal.str "1"),
         ("number_of_replicas", JVal.str "1")])])])]) = some true :=
  (verify_index_settings_iff "audit-_test" 1 1 _).1.mpr (by decide)

/-! ## Claims C3 and C8 -/

theorem failed_msg_ne_verification_msg (a b : String) :
    ("Failed to test template " ++ a) ≠
      ("Template " ++ b ++ " was updated but verification failed") := by
  intro h
  have h2 := congrArg String.data h
  rw [String.data_append, String.data_append, String.data_append] at h2
  have e1 : ("Failed to test template " : String).data =
      'F' :: ("ailed to test template " : String).data := rfl
  have e2 : ("Template " : String).data = 'T' :: ("emplate " : String).data := rfl
  rw [e1, e2] at h2
  simp only [List.cons_append] at h2
  injection h2 with hc _
  exact absurd hc (by decide)

theorem run_tests_mem_inv (ts : List TemplateDetail)
    (createResp : TemplateDetail → Option Jobj) (verifyRes : TemplateDetail → Option Bool)
    (t : TemplateDetail) (ops : List TestOp) (msg : String)
    (h : (t, ops, msg) ∈ (run_tests ts createResp verifyRes).1) :
    t ∈ ts ∧ test_template t (createResp t) (verifyRes t) = Except.ok (ops, msg) := by
  induction ts with
  | nil => simp [run_tests] at h
  | cons t0 rest ih =>
    unfold run_tests at h
    split at h
    · rename_i eops he
      have h2 : (t, ops, msg) ∈ ([] : List (TemplateDetail × List TestOp × String)) := h
      simp at h2
    · rename_i res he
      have h2 : (t, ops, msg) ∈
          (t0, res.1, res.2) :: (run_tests rest createResp verifyRes).1 := h
      rcases List.mem_cons.mp h2 with h3 | h3
      · injection h3 with h4 h5
        subst h4
        injection h5 with h6 h7
        subst h6
        subst h7
        exact ⟨List.mem_cons_self _ _, by rw [he]⟩
      · obtain ⟨hm, he2⟩ := ih h3
        exact ⟨List.mem_cons_of_mem _ hm, he2⟩

theorem run_tests_abort_inv (ts : List TemplateDetail)
    (createResp : TemplateDetail → Option Jobj) (verifyRes : TemplateDetail → Option Bool)
    (t : TemplateDetail) (ops : List TestOp)
    (h : (run_tests ts createResp verifyRes).2 = some (t, ops)) :
    t ∈ ts ∧ test_template t (createResp t) (verifyRes t) = Except.error ops := by
  induction ts with
  | nil => simp [run_tests] at h
  | cons t0 rest ih =>
    unfold run_tests at h
    split at h
    · rename_i eops he
      have h2 : some (t0, eops) = some (t, ops) := h
      injection h2 with h3
      injection h3 with h4 h5
      subst h4
      subst h5
      exact ⟨List.mem_cons_self _ _, he⟩
    · rename_i res he
      have h2 : (run_tests rest createResp verifyRes).2 = some (t, ops) := h
      obtain ⟨hm, he2⟩ := ih h2
      exact ⟨List.mem_cons_of_mem _ hm, he2⟩

/-- Claim C3 (counterexample): a run in which the probe document was
successfully created but `verify_index_settings` raised (modelled by
`verifyRes = none`; in the source a transport failure of the settings
GET raises via `subprocess.run(check=True)` at line 22) never reaches
`delete_index` at line 249 — the test loop aborts with a partial trace
containing no deletion, so cleanup is invoked zero times, not once. -/
theorem cleanup_missed_on_verify_raise_cex :
    run_tests [TemplateDetail.mk "audit-v1" (JVal.str "5") (JVal.str "2") "audit-_test"]
      (fun _ => some [("result", JVal.str "created")]) (fun _ => none) =
      ([], some (TemplateDetail.mk "audit-v1" (JVal.str "5") (JVal.str "2") "audit-_test",
        [TestOp.createDoc "audit-_test", TestOp.sleepSecs 2,
         TestOp.verifySettings "audit-_test" 1 1])) ∧
    create_doc_success (some [("result", JVal.str "created")]) = true ∧
    [TestOp.createDoc "audit-_test", TestOp.sleepSecs 2,
      TestOp.verifySettings "audit-_test" 1 1].count
        (TestOp.deleteIndex "audit-_test") = 0 := by
  refine ⟨rfl, by decide, by decide⟩

/-- Claim C3 (amended): in every run, each template whose loop body
completed has its test index deleted exactly once when its probe
document was created — whatever Boolean the verification returned — and
not at all when probe creation failed; when `verify_index_settings`
raises instead of returning, the loop aborts on a probe-created
template without invoking the deletion (and no remaining template is
processed). -/
theorem cleanup_exactly_once_unless_verify_raises (ts : List TemplateDetail)
    (createResp : TemplateDetail → Option Jobj)
    (verifyRes : TemplateDetail → Option Bool) :
    (∀ t ops msg, (t, ops, msg) ∈ (run_tests ts createResp verifyRes).1 →
      ops.count (TestOp.deleteIndex t.test_index) =
        if create_doc_success (createResp t) then 1 else 0) ∧
    (∀ t ops, (run_tests ts createResp verifyRes).2 = some (t, ops) →
      create_doc_success (createResp t) = true ∧ verifyRes t = none ∧
      ops.count (TestOp.deleteIndex t.test_index) = 0) := by
  constructor
  · intro t ops msg h
    obtain ⟨_, he⟩ := run_tests_mem_inv ts createResp verifyRes t ops msg h
    unfold test_template at he
    by_cases hc : create_doc_success (createResp t) = true
    · rcases hv : verifyRes t with _ | b
      · rw [hv] at he
        simp only [hc, if_true] at he
        cases he
      · rw [hv] at he
        simp only [hc, if_true, Except.ok.injEq, Prod.mk.injEq] at he
        obtain ⟨hops, hmsg⟩ := he
        rw [if_pos hc, ← hops]
        simp [List.count_cons]
    · rw [Bool.not_eq_true] at hc
      simp only [hc, Bool.false_eq_true, if_false, Except.ok.injEq, Prod.mk.injEq] at he
      obtain ⟨hops, hmsg⟩ := he
      rw [if_neg (by simp [hc]), ← hops]
      simp [List.count_cons]
  · intro t ops h
    obtain ⟨_, he⟩ := run_tests_abort_inv ts createResp verifyRes t ops h
    unfold test_template at he
    by_cases hc : create_doc_success (createResp t) = true
    · rcases hv : verifyRes t with _ | b
      · rw [hv] at he
        simp only [hc, if_true, Except.error.injEq] at he
        refine ⟨hc, rfl, ?_⟩
        rw [← he]
        simp [List.count_cons]
      · rw [hv] at he
        simp only [hc, if_true] at he
        cases he
    · rw [Bool.not_eq_true] at hc
      simp only [hc, Bool.false_eq_true, if_false] at he
      cases he

/-- Witness for C3 (amended): a completed loop body with a created
probe and a returned (False) verification deletes the test index
exactly once. -/
theorem cleanup_exactly_once_unless_verify_raises_witness :
    [TestOp.createDoc "audit-_test", TestOp.sleepSecs 2,
      TestOp.verifySettings "audit-_test" 1 1,
      TestOp.deleteIndex "audit-_test"].count (TestOp.deleteIndex "audit-_test") =
      if create_doc_success (some [("result", JVal.str "created")]) then 1 else 0 :=
  (cleanup_exactly_once_unless_verify_raises
    [TemplateDetail.mk "audit-v1" (JVal.str "5") (JVal.str "2") "audit-_test"]
    (fun _ => some [("result", JVal.str "created")]) (fun _ => some false)).1
    (TemplateDetail.mk "audit-v1" (JVal.str "5") (JVal.str "2") "audit-_test")
    [TestOp.createDoc "audit-_test", TestOp.sleepSecs 2,
      TestOp.verifySettings "audit-_test" 1 1, TestOp.deleteIndex "audit-_test"]
    "Template audit-v1 was updated but verification failed"
    (List.mem_singleton.mpr rfl)

/-- Claim C8: in every run, a template whose probe-document creation
failed (the response had no `result` of `created`/`updated`) has no
settings-verification call in its trace, and is reported with the
"Failed to test" line, not the "verification failed" line
(src/main.py lines 241-256). -/
theorem probe_failure_skips_verification (ts : List TemplateDetail)
    (createResp : TemplateDetail → Option Jobj) (verifyRes : TemplateDetail → Option Bool)
    (t : TemplateDetail) (ops : List TestOp) (msg : String)
    (h : (t, ops, msg) ∈ (run_tests ts createResp verifyRes).1)
    (hfail : create_doc_success (createResp t) = false) :
    ops.filter is_verify_op = [] ∧
    msg = "Failed to test template " ++ t.name ∧
    ∀ b, msg ≠ "Template " ++ b ++ " was updated but verification failed" := by
  obtain ⟨_, he⟩ := run_tests_mem_inv ts createResp verifyRes t ops msg h
  unfold test_template at he
  simp only [hfail, Bool.false_eq_true, if_false, Except.ok.injEq, Prod.mk.injEq] at he
  obtain ⟨hops, hmsg⟩ := he
  refine ⟨?_, hmsg.symm, ?_⟩
  · rw [← hops]
    simp [is_verify_op]
  · intro b
    rw [← hmsg]
    exact failed_msg_ne_verification_msg t.name b

/-- Witness for C8: a probe response without a `created`/`updated`
result yields an empty verification trace and the "Failed to test"
report line. -/
theorem probe_failure_skips_verification_witness :
    ([TestOp.createDoc "audit-_test"] : List TestOp).filter is_verify_op = [] ∧
    ("Failed to test template audit-v1" : String) =
      "Failed to test template " ++ "audit-v1" ∧
    ∀ b, ("Failed to test template audit-v1" : String) ≠
      "Template " ++ b ++ " was updated but verification failed" :=
  probe_failure_skips_verification
    [TemplateDetail.mk "audit-v1" (JVal.str "5") (JVal.str "2") "audit-_test"]
    (fun _ => some [("error", JVal.str "rejected")]) (fun _ => some true)
    (TemplateDetail.mk "audit-v1" (JVal.str "5") (JVal.str "2") "audit-_test") _ _
    (List.mem_singleton.mpr rfl) rfl

/-! ## Claims C6 and C7 -/

theorem modify_body_obj_inv (fields : Jobj) (shards replicas : Int) (nb : JVal)
    (h : modify_body (JVal.obj fields) shards replicas = some nb) :
    ∃ s0 i0, ensure_obj (dget fields "settings") = some s0 ∧
      ensure_obj (dget s0 "index") = some i0 ∧
      nb = JVal.obj (dset fields "settings" (JVal.obj (dset s0 "index" (JVal.obj
        (dset (dset i0 "number_of_shards" (JVal.str (toString shards)))
          "number_of_replicas" (JVal.str (toString replicas))))))) := by
  unfold modify_body at h
  split at h
  · cases h
  · rename_i fields2 hfields
    split at h
    · cases h
    · rename_i s0 hs
      split at h
      · cases h
      · rename_i i0 hi
        injection h with h3
        simp only [asObj, Option.some.injEq] at hfields
        subst hfields
        exact ⟨s0, i0, hs, hi, h3.symm⟩

/-- Claim C6: `update_template` is read-modify-write — the body it PUTs
back (the `some nb` produced by `modify_body`, src/main.py lines 83-93)
carries `settings.index.number_of_shards` and
`settings.index.number_of_replicas` as the new string-encoded values,
and passes through unchanged every other field already present in the
stored template: every top-level field other than `settings`, every
`settings` subfield other than `index`, and every `settings.index`
field other than the two counts. -/
theorem update_template_frame_effect (body : Jobj) (shards replicas : Int) (nb : JVal)
    (h : modify_body (JVal.obj body) shards replicas = some nb) :
    ∃ nf ns ni,
      nb = JVal.obj nf ∧
      dget nf "settings" = some (JVal.obj ns) ∧
      dget ns "index" = some (JVal.obj ni) ∧
      dget ni "number_of_shards" = some (JVal.str (toString shards)) ∧
      dget ni "number_of_replicas" = some (JVal.str (toString replicas)) ∧
      (∀ k, k ≠ "settings" → dget nf k = dget body k) ∧
      (∀ s, dget body "settings" = some (JVal.obj s) →
        ∀ k, k ≠ "index" → dget ns k = dget s k) ∧
      (∀ s i, dget body "settings" = some (JVal.obj s) →
        dget s "index" = some (JVal.obj i) →
        ∀ k, k ≠ "number_of_shards" → k ≠ "number_of_replicas" →
          dget ni k = dget i k) := by
  obtain ⟨s0, i0, hs, hi, h3⟩ := modify_body_obj_inv body shards replicas nb h
  subst h3
  refine ⟨_, _, _, rfl, dget_dset_self _ _ _, dget_dset_self _ _ _, ?_, dget_dset_self _ _ _,
    ?_, ?_, ?_⟩
  · rw [dget_dset_ne _ _ _ _ (by decide)]
    exact dget_dset_self _ _ _
  · intro k hk
    exact dget_dset_ne _ _ _ _ hk
  · intro s hset k hk
    rw [hset] at hs
    simp only [ensure_obj, Option.some.injEq] at hs
    subst hs
    exact dget_dset_ne _ _ _ _ hk
  · intro s i hset hidx k hk1 hk2
    rw [hset] at hs
    simp only [ensure_obj, Option.some.injEq] at hs
    subst hs
    rw [hidx] at hi
    simp only [ensure_obj, Option.some.injEq] at hi
    subst hi
    rw [dget_dset_ne _ _ _ _ hk2, dget_dset_ne _ _ _ _ hk1]

/-- Witness for C6: patching a concrete stored body keeps `order` and
the pre-existing `settings.index.codec` untouched and rewrites exactly
the two counts. -/
theorem update_template_frame_effect_witness :
    ∃ nf ns ni,
      (JVal.obj [("order", JVal.num 0), ("settings", JVal.obj [("index", JVal.obj
          [("codec", JVal.str "best_compression"), ("number_of_shards", JVal.str "1"),
           ("number_of_replicas", JVal.str "1")])])]) = JVal.obj nf ∧
      dget nf "settings" = some (JVal.obj ns) ∧
      dget ns "index" = some (JVal.obj ni) ∧
      dget ni "number_of_shards" = some (JVal.str (toString (1 : Int))) ∧
      dget ni "number_of_replicas" = some (JVal.str (toString (1 : Int))) ∧
      (∀ k, k ≠ "settings" →
        dget nf k = dget [("order", JVal.num 0), ("settings", JVal.obj [("index", JVal.obj
          [("codec", JVal.str "best_compression"), ("number_of_shards", JVal.str "5"),
           ("number_of_replicas", JVal.str "2")])])] k) ∧
      (∀ s, dget [("order", JVal.num 0), ("settings", JVal.obj [("index", JVal.obj
          [("codec", JVal.str "best_compression"), ("number_of_shards", JVal.str "5"),
           ("number_of_replicas", JVal.str "2")])])] "settings" = some (JVal.obj s) →
        ∀ k, k ≠ "index" → dget ns k = dget s k) ∧
      (∀ s i, dget [("order", JVal.num 0), ("settings", JVal.obj [("index", JVal.obj
          [("codec", JVal.str "best_compression"), ("number_of_shards", JVal.str "5"),
           ("number_of_replicas", JVal.str "2")])])] "settings" = some (JVal.obj s) →
        dget s "index" = some (JVal.obj i) →
        ∀ k, k ≠ "number_of_shards" → k ≠ "number_of_replicas" →
          dget ni k = dget i k) :=
  update_template_frame_effect
    [("order", JVal.num 0), ("settings", JVal.obj [("index", JVal.obj
      [("codec", JVal.str "best_compression"), ("number_of_shards", JVal.str "5"),
       ("number_of_replicas", JVal.str "2")])])] 1 1 _ rfl

theorem modify_body_idem (body nb : JVal) (shards replicas : Int)
    (h : modify_body body shards replicas = some nb) :
    modify_body nb shards replicas = some nb := by
  rcases body with s | n | b | _ | l | fields
  · cases h
  · cases h
  · cases h
  · cases h
  · cases h
  obtain ⟨s0, i0, hs, hi, h3⟩ := modify_body_obj_inv fields shards replicas nb h
  subst h3
  have hget_s : ensure_obj (dget (dset fields "settings" (JVal.obj (dset s0 "index" (JVal.obj
      (dset (dset i0 "number_of_shards" (JVal.str (toString shards)))
        "number_of_replicas" (JVal.str (toString replicas))))))) "settings") =
      some (dset s0 "index" (JVal.obj
        (dset (dset i0 "number_of_shards" (JVal.str (toString shards)))
          "number_of_replicas" (JVal.str (toString replicas))))) := by
    rw [dget_dset_self]
    rfl
  have hget_i : ensure_obj (dget (dset s0 "index" (JVal.obj
      (dset (dset i0 "number_of_shards" (JVal.str (toString shards)))
        "number_of_replicas" (JVal.str (toString replicas))))) "index") =
      some (dset (dset i0 "number_of_shards" (JVal.str (toString shards)))
        "number_of_replicas" (JVal.str (toString replicas))) := by
    rw [dget_dset_self]
    rfl
  show modify_body (JVal.obj _) shards replicas = _
  unfold modify_body
  simp only [asObj, hget_s, hget_i]
  have e1 : dset (dset (dset i0 "number_of_shards" (JVal.str (toString shards)))
      "number_of_replicas" (JVal.str (toString replicas)))
      "number_of_shards" (JVal.str (toString shards)) =
      dset (dset i0 "number_of_shards" (JVal.str (toString shards)))
        "number_of_replicas" (JVal.str (toString replicas)) := by
    apply dset_of_dget_eq
    rw [dget_dset_ne _ _ _ _ (by decide)]
    exact dget_dset_self _ _ _
  rw [e1]
  have e2 : dset (dset (dset i0 "number_of_shards" (JVal.str (toString shards)))
      "number_of_replicas" (JVal.str (toString replicas)))
      "number_of_replicas" (JVal.str (toString replicas)) =
      dset (dset i0 "number_of_shards" (JVal.str (toString shards)))
        "number_of_replicas" (JVal.str (toString replicas)) := by
    apply dset_of_dget_eq
    exact dget_dset_self _ _ _
  rw [e2]
  have e3 : dset (dset s0 "index" (JVal.obj
      (dset (dset i0 "number_of_shards" (JVal.str (toString shards)))
        "number_of_replicas" (JVal.str (toString replicas)))))
      "index" (JVal.obj (dset (dset i0 "number_of_shards" (JVal.str (toString shards)))
        "number_of_replicas" (JVal.str (toString replicas)))) =
      dset s0 "index" (JVal.obj (dset (dset i0 "number_of_shards" (JVal.str (toString shards)))
        "number_of_replicas" (JVal.str (toString replicas)))) := by
    apply dset_of_dget_eq
    exact dget_dset_self _ _ _
  rw [e3]
  have e4 : dset (dset fields "settings" (JVal.obj (dset s0 "index" (JVal.obj
      (dset (dset i0 "number_of_shards" (JVal.str (toString shards)))
        "number_of_replicas" (JVal.str (toString replicas)))))))
      "settings" (JVal.obj (dset s0 "index" (JVal.obj
        (dset (dset i0 "number_of_shards" (JVal.str (toString shards)))
          "number_of_replicas" (JVal.str (toString replicas)))))) =
      dset fields "settings" (JVal.obj (dset s0 "index" (JVal.obj
        (dset (dset i0 "number_of_shards" (JVal.str (toString shards)))
          "number_of_replicas" (JVal.str (toString replicas)))))) := by
    apply dset_of_dget_eq
    exact dget_dset_self _ _ _
  rw [e4]

/-- Claim C7: template mutation is idempotent — after a first
successful `update_template` with given shard/replica values, applying
it again with the same values succeeds and leaves the stored template
unchanged (the second patch produces the identical body and the PUT
stores it back verbatim). -/
theorem update_template_idempotent (store store1 : Jobj) (name : String)
    (shards replicas : Int)
    (h : update_template_store store name shards replicas = some (store1, true)) :
    update_template_store store1 name shards replicas = some (store1, true) := by
  unfold update_template_store at h
  split at h
  · cases h
  · rename_i body hb
    split at h
    · cases h
    · rename_i nb hm
      injection h with h2
      injection h2 with h3 _
      subst h3
      have hget1 : dget (dset store name nb) name = some nb := dget_dset_self _ _ _
      have hmod1 : modify_body nb shards replicas = some nb :=
        modify_body_idem body nb shards replicas hm
      simp only [update_template_store, hget1, hmod1]
      rw [dset_of_dget_eq _ _ _ hget1]

/-- Witness for C7: a second application of the same update to the
store produced by a first successful application changes nothing. -/
theorem update_template_idempotent_witness :
    update_template_store
      [("sharding_test_template", JVal.obj [("settings", JVal.obj [("index", JVal.obj
        [("number_of_shards", JVal.str "1"),
         ("number_of_replicas", JVal.str "1")])])])]
      "sharding_test_template" 1 1 =
      some ([("sharding_test_template", JVal.obj [("settings", JVal.obj [("index", JVal.obj
        [("number_of_shards", JVal.str "1"),
         ("number_of_replicas", JVal.str "1")])])])], true) :=
  update_template_idempotent [("sharding_test_template", JVal.obj [])] _
    "sharding_test_template" 1 1 rfl

/-! ## Claim C9 -/

/-- Claim C9 (counterexample): a transport-level failure of the PUT does
not make `update_template` return failure — `run_command` uses
`subprocess.run(check=True)` (src/main.py line 22), so the raised
exception propagates out of `update_template` (and aborts the whole run
at the top-level handler), instead of yielding a `False` return. -/
theorem update_template_transport_failure_cex :
    update_template_run "sharding_test_template" 1 1
      (CallResult.ok [("sharding_test_template", JVal.obj [])]) CallResult.transport =
      Except.error () ∧
    ∀ o : UpdateOutcome,
      (Except.error () : Except Unit UpdateOutcome) ≠ Except.ok o := by
  constructor
  · rfl
  · intro o h
    cases h

/-- Claim C9 (amended): once the GET delivered a body containing the
template and the patch succeeded, `update_template` returns success iff
the PUT response decoded to a JSON object that is truthy and holds a
truthy `acknowledged` value; a PUT whose body fails to decode yields
`None` and returns failure; a transport-level PUT failure raises and
propagates instead of returning.  `ack_success` holds exactly when an
`acknowledged` key is present with a truthy value. -/
theorem update_template_put_result_amended (name : String) (shards replicas : Int)
    (body : Jobj) (cfg newCfg : JVal) (putRes : CallResult)
    (hget : dget body name = some cfg)
    (hmod : modify_body cfg shards replicas = some newCfg) :
    (∀ resp, putRes = CallResult.ok resp →
      update_template_run name shards replicas (CallResult.ok body) putRes =
        Except.ok ⟨ack_success resp, some newCfg⟩) ∧
    (putRes = CallResult.badJson →
      update_template_run name shards replicas (CallResult.ok body) putRes =
        Except.ok ⟨false, some newCfg⟩) ∧
    (putRes = CallResult.transport →
      update_template_run name shards replicas (CallResult.ok body) putRes =
        Except.error ()) ∧
    (∀ resp, ack_success resp = true ↔
      ∃ v, dget resp "acknowledged" = some v ∧ truthy v = true) := by
  refine ⟨?_, ?_, ?_, ?_⟩
  · intro resp hput
    subst hput
    simp [update_template_run, hget, hmod]
  · intro hput
    subst hput
    simp [update_template_run, hget, hmod]
  · intro hput
    subst hput
    simp [update_template_run, hget, hmod]
  · intro resp
    unfold ack_success
    rcases resp with _ | ⟨⟨k0, v0⟩, rest⟩
    · simp [dget]
    · simp only [List.isEmpty_cons, if_false, Bool.false_eq_true]
      rcases hd : dget ((k0, v0) :: rest) "acknowledged" with _ | v
      · simp [truthy]
      · simp

/-- Witness for C9 (amended): an acknowledged PUT response yields a
`True` return carrying the patched body. -/
theorem update_template_put_result_amended_witness :
    update_template_run "sharding_test_template" 1 1
      (CallResult.ok [("sharding_test_template", JVal.obj [])])
      (CallResult.ok [("acknowledged", JVal.bool true)]) =
      Except.ok ⟨true, some (JVal.obj [("settings", JVal.obj [("index", JVal.obj
        [("number_of_shards", JVal.str "1"),
         ("number_of_replicas", JVal.str "1")])])])⟩ :=
  (update_template_put_result_amended "sharding_test_template" 1 1
    [("sharding_test_template", JVal.obj [])] (JVal.obj [])
    (JVal.obj [("settings", JVal.obj [("index", JVal.obj
      [("number_of_shards", JVal.str "1"),
       ("number_of_replicas", JVal.str "1")])])])
    (CallResult.ok [("acknowledged", JVal.bool true)]) rfl rfl).1
    [("acknowledged", JVal.bool true)] rfl

/-! ## Claim C1 -/

theorem get_template_detail_name (n : String) (v : JVal) (d : TemplateDetail)
    (h : get_template_detail n v = some d) : d.name = n := by
  unfold get_template_detail at h
  split at h
  · cases h
  · split at h
    · cases h
    · split at h
      · cases h
      · injection h with h2
        rw [← h2]

/-- Claim C1 (counterexample): the acted-upon set is not always exactly
the intersection of the reported names with the allow-list — an
allow-listed template whose body makes detail extraction raise (here,
an empty `index_patterns` list raising IndexError at src/main.py line
56, caught at line 66) is skipped, so it is neither displayed nor
mutated although it lies in the intersection. -/
theorem acted_names_not_exact_intersection_cex :
    acted_names [("sharding_test_template", JVal.obj [("index_patterns", JVal.arr [])])] =
      [] ∧
    "sharding_test_template" ∈
      ([("sharding_test_template", JVal.obj [("index_patterns", JVal.arr [])])] : Jobj).map
        Prod.fst ∧
    "sharding_test_template" ∈ template_to_change := by
  refine ⟨rfl, by decide, by decide⟩

/-- Claim C1 (amended): every acted-upon (displayed, mutated or probed)
name lies both among the cluster-reported names and in the allow-list —
membership is by exact name, so no template outside the allow-list is
ever mutated — and when detail extraction succeeds for every
allow-listed template (no per-template exception is raised), the
acted-upon names are exactly the intersection of the reported names
with the allow-list. -/
theorem acted_names_subset_and_exact (templates : Jobj) :
    (∀ n, n ∈ acted_names templates →
      n ∈ templates.map Prod.fst ∧ n ∈ template_to_change) ∧
    ((∀ kv, kv ∈ filter_templates templates →
        (get_template_detail kv.1 kv.2).isSome = true) →
      acted_names templates =
        (templates.map Prod.fst).filter (fun n => template_to_change.contains n)) := by
  constructor
  · intro n hn
    rcases List.mem_map.mp hn with ⟨d, hd, hdn⟩
    rcases List.mem_filterMap.mp hd with ⟨kv, hkv, hdet⟩
    have hname : d.name = kv.1 := get_template_detail_name kv.1 kv.2 d hdet
    have hfilt := List.mem_filter.mp hkv
    constructor
    · rw [← hdn, hname]
      exact List.mem_map.mpr ⟨kv, hfilt.1, rfl⟩
    · rw [← hdn, hname]
      exact List.mem_of_elem_eq_true hfilt.2
  · intro hall
    unfold acted_names get_template_details filter_templates
    induction templates with
    | nil => rfl
    | cons kv rest ih =>
      obtain ⟨k0, v0⟩ := kv
      by_cases hk : template_to_change.contains k0
      · have hkin : (k0, v0) ∈ filter_templates ((k0, v0) :: rest) := by
          apply List.mem_filter.mpr
          exact ⟨List.mem_cons_self _ _, hk⟩
        have hsome := hall (k0, v0) hkin
        rcases hd : get_template_detail k0 v0 with _ | d
        · rw [hd] at hsome
          cases hsome
        · have hrest : ∀ kv, kv ∈ filter_templates rest →
              (get_template_detail kv.1 kv.2).isSome = true := by
            intro kv2 hkv2
            apply hall
            apply List.mem_filter.mpr
            have h2 := List.mem_filter.mp hkv2
            exact ⟨List.mem_cons_of_mem _ h2.1, h2.2⟩
          have ihr := ih hrest
          simp only [List.filter_cons, List.map_cons, hk, if_true, List.filterMap_cons, hd]
          rw [get_template_detail_name k0 v0 d hd, ihr]
      · have hrest : ∀ kv, kv ∈ filter_templates rest →
            (get_template_detail kv.1 kv.2).isSome = true := by
          intro kv2 hkv2
          apply hall
          apply List.mem_filter.mpr
          have h2 := List.mem_filter.mp hkv2
          exact ⟨List.mem_cons_of_mem _ h2.1, h2.2⟩
        have ihr := ih hrest
        have hkf : template_to_change.contains k0 = false := by
          rw [Bool.not_eq_true] at hk
          exact hk
        simp only [List.filter_cons, List.map_cons, hkf, if_false, Bool.false_eq_true]
        rw [ihr]

/-- Witness for C1 (amended): with well-formed bodies the acted-upon
names are exactly the allow-listed reported names. -/
theorem acted_names_subset_and_exact_witness :
    acted_names [("sharding_test_template", JVal.obj []), ("audit-v1", JVal.obj [])] =
      (([("sharding_test_template", JVal.obj []), ("audit-v1", JVal.obj [])] : Jobj).map
        Prod.fst).filter (fun n => template_to_change.contains n) :=
  (acted_names_subset_and_exact
    [("sharding_test_template", JVal.obj []), ("audit-v1", JVal.obj [])]).2
    (fun kv hkv => by
      rw [List.mem_singleton.mp hkv]
      rfl)
